import Mathlib

/-!
Shallow embedding of the 3D measurement tool in
src/components/Three/Measure.ts (and its thin wrapper index.ts).

Modelling conventions:

* JS numbers are embedded as exact rationals (state machine, formatting)
  or reals (geometry involving square roots / arccos).
* The three.js scene graph is a list of top-level objects; each object is
  a pair of a fresh numeric id and its `name` tag.  `scene.add` appends,
  `scene.remove` is `List.erase` (three.js removes at `indexOf`, a no-op
  when the object is absent, exactly like `List.erase`).
* Labels created by createHelper carry LABEL_NAME, geometry created by
  createPoints/createLine/createFaces carries OBJ_NAME, and createCurve
  also tags its line with LABEL_NAME (Measure.ts line 658).
* Label text and 3D positions are elided: no claim depends on them, only
  on which objects exist, where they are attached, and on the committed
  point list, buffers and flags.
* Ray casting (getClosestIntersection, lines 518-541) is abstracted as an
  oracle `hit : Option Vec3Q` already filtered for self-owned objects and
  MAX_DISTANCE; the guard "no raycaster / already completed returns
  nothing" (line 519) is modelled faithfully.
* `polyline.add(label)` (line 466) follows three.js `Object3D.add`:
  the label is detached from its current parent (the scene) and appended
  to the polyline's children.
* DOM event listeners are a list of event-type names; addEventListener
  with an already-registered handler is a no-op, removeEventListener
  erases the entry.
-/

namespace MeasureTs

/-- MeasureMode enum (Measure.ts lines 9-13). -/
inductive MeasureMode where
  | Distance
  | Area
  | Angle
deriving DecidableEq

/-- A 3D point with exact rational coordinates (JS numbers). -/
structure Vec3Q where
  x : ℚ
  y : ℚ
  z : ℚ
deriving DecidableEq

/-- A scene-graph object: a fresh id plus its `name` tag. -/
structure SceneObj where
  id : ℕ
  name : String
deriving DecidableEq

/-- MAX_POINTS (Measure.ts line 47). -/
def MAX_POINTS : ℕ := 100

/-- MAX_DISTANCE (Measure.ts line 48); the raycast oracle is assumed to
have applied this filter already. -/
def MAX_DISTANCE : ℕ := 500

/-- OBJ_NAME (Measure.ts line 49). -/
def OBJ_NAME : String := "object_for_measure"

/-- LABEL_NAME (Measure.ts line 50). -/
def LABEL_NAME : String := "label_for_measure"

/-- The mutable fields of the Measure class (Measure.ts lines 52-77)
together with the externally owned scene, the drag-controls object list,
the committed polyline's vertex buffer/draw range/children, a fresh-id
counter and the console error/warn logs. -/
@[ext]
structure MState where
  mode : MeasureMode
  listeners : List String
  raycaster : Bool
  font : Bool
  helpLabel : Option SceneObj
  tempLabel : Option SceneObj
  mouseMoved : Bool
  isCompleted : Bool
  points : Option SceneObj
  polylineObj : Option SceneObj
  polylineBuf : List ℚ
  polylineRange : Option ℕ
  polylineChildren : List SceneObj
  faces : Option SceneObj
  curve : Option SceneObj
  tempPoints : Option SceneObj
  tempLine : Option SceneObj
  tempLineForArea : Option SceneObj
  tempLineLabelArr : List SceneObj
  pointArray : List Vec3Q
  pointsArray : List Vec3Q
  fontSize : ℚ
  tempFontSize : ℚ
  lastClickTime : Option ℕ
  scene : List SceneObj
  draggable : List SceneObj
  nextId : ℕ
  errorLog : List String
  warnLog : List String
  cursor : String
deriving DecidableEq

/-- Constructor state (Measure.ts lines 79-93): nothing created yet, the
scene holds only external objects, the font loads asynchronously. -/
def mkInit (ext : List SceneObj) (n : ℕ) : MState where
  mode := MeasureMode.Distance
  listeners := []
  raycaster := false
  font := false
  helpLabel := none
  tempLabel := none
  mouseMoved := false
  isCompleted := false
  points := none
  polylineObj := none
  polylineBuf := List.replicate (MAX_POINTS * 3) 0
  polylineRange := none
  polylineChildren := []
  faces := none
  curve := none
  tempPoints := none
  tempLine := none
  tempLineForArea := none
  tempLineLabelArr := []
  pointArray := []
  pointsArray := []
  fontSize := 0
  tempFontSize := 0
  lastClickTime := none
  scene := ext
  draggable := []
  nextId := n
  errorLog := []
  warnLog := []
  cursor := ""

/-- addEventListener: a no-op when the same handler is already attached. -/
def addListener (l : List String) (nm : String) : List String :=
  if nm ∈ l then l else l ++ [nm]

/-- Writes vertex components 3i, 3i+1, 3i+2 of a preallocated buffer. -/
def bufWrite3 (buf : List ℚ) (i : ℕ) (p : Vec3Q) : List ℚ :=
  ((buf.set i p.x).set (i + 1) p.y).set (i + 2) p.z

/-- The recurring pattern obj && this.scene.remove(obj): removes the
object from the scene children when the field is set (three.js remove is
a no-op on a non-child). -/
def sceneRemove (o : Option SceneObj) (l : List SceneObj) : List SceneObj :=
  match o with
  | some x => l.erase x
  | none => l

/-- Ends the measurement (Measure.ts lines 139-176).  Note line 143
removes a listener of type dblclick although open attached the handler
under contextmenu (line 109), and that the faces and curve fields are not
reset (lines 162-175 reset the others). -/
def close (s : MState) : MState :=
  let ls := ((((s.listeners.erase "mousedown").erase "mousemove").erase
      "mouseup").erase "dblclick").erase "keydown"
  let sc1 := sceneRemove s.tempPoints s.scene
  let sc2 := sceneRemove s.tempLine sc1
  let sc3 := sceneRemove s.tempLineForArea sc2
  let sc4 := sceneRemove s.points sc3
  let sc5 := sceneRemove s.polylineObj sc4
  let sc6 := sceneRemove s.faces sc5
  let sc7 := sceneRemove s.curve sc6
  let sc8 := sceneRemove s.helpLabel sc7
  let sc9 := sceneRemove s.tempLabel sc8
  let children := match s.polylineObj with
    | some _ => s.tempLineLabelArr.foldl (fun acc o => acc.erase o) s.polylineChildren
    | none => s.polylineChildren
  { s with
    listeners := ls
    scene := sc9
    polylineChildren := children
    tempLabel := none
    helpLabel := none
    pointArray := []
    pointsArray := []
    tempLineLabelArr := []
    raycaster := false
    tempPoints := none
    tempLine := none
    tempLineForArea := none
    points := none
    polylineObj := none
    fontSize := 0
    cursor := ""
    draggable := [] }

/-- The body of open() after the initial close() (Measure.ts lines
106-133): listener attachment (contextmenu carries the dblclick handler,
line 109), state reset, creation of the raycaster, the point cloud and
the polyline, plus the faces mesh in Area mode. -/
def openSetupPhase (s1 : MState) : MState :=
  let s2 := { s1 with
    listeners := addListener (addListener (addListener (addListener
      (addListener s1.listeners "mousedown") "mousemove") "mouseup")
      "contextmenu") "keydown"
    pointArray := []
    pointsArray := []
    helpLabel := none
    tempLabel := none
    tempLineLabelArr := []
    raycaster := true }
  let pts : SceneObj := ⟨s2.nextId, OBJ_NAME⟩
  let pl : SceneObj := ⟨s2.nextId + 1, OBJ_NAME⟩
  let s3 := { s2 with
    points := some pts
    polylineObj := some pl
    scene := s2.scene ++ [pts, pl]
    polylineBuf := List.replicate (MAX_POINTS * 3) 0
    polylineRange := none
    polylineChildren := []
    nextId := s2.nextId + 2 }
  let s4 :=
    if s3.mode = MeasureMode.Area then
      { s3 with
        faces := some (⟨s3.nextId, OBJ_NAME⟩ : SceneObj)
        scene := s3.scene ++ [(⟨s3.nextId, OBJ_NAME⟩ : SceneObj)]
        nextId := s3.nextId + 1 }
    else s3
  { s4 with isCompleted := false, cursor := "crosshair", fontSize := 0 }

/-- open() (Measure.ts lines 102-134): optional mode switch, a full
close(), then the setup phase. -/
def openTool (m : Option MeasureMode) (s : MState) : MState :=
  openSetupPhase (close (match m with | some mm => { s with mode := mm } | none => s))

/-- addHelpLabel (Measure.ts lines 326-334): lazily creates the singular
help label (a createHelper CSS2D object, LABEL_NAME) and adds it to the
scene; repositioning/text rewriting is elided. -/
def addHelpLabel (s : MState) : MState :=
  match s.helpLabel with
  | some _ => s
  | none =>
      let o : SceneObj := ⟨s.nextId, LABEL_NAME⟩
      { s with helpLabel := some o, scene := s.scene ++ [o], nextId := s.nextId + 1 }

/-- addOrUpdateLabel (Measure.ts lines 568-604): bails out with a console
warning when the font is not loaded, otherwise removes the previous
transient label from the scene, creates a fresh createHelper label
(LABEL_NAME) and adds it to the scene (line 603; attaching to the passed
object is commented out in the source).  Text, position, direction and
distance arguments are elided. -/
def addOrUpdateLabel (s : MState) : MState :=
  if s.font = false then
    { s with warnLog := s.warnLog ++ ["Font is not loaded yet!"] }
  else
    let s1 := match s.tempLabel with
      | some old => { s with scene := s.scene.erase old }
      | none => s
    let o : SceneObj := ⟨s1.nextId, LABEL_NAME⟩
    { s1 with tempLabel := some o, scene := s1.scene ++ [o], nextId := s1.nextId + 1 }

/-- clearPoints flag of complete() (Measure.ts lines 220, 246-254, 276-279). -/
def clearPointsFlag (s : MState) : Bool :=
  decide ((s.mode = MeasureMode.Area ∧ s.polylineObj.isSome ∧ ¬ 2 < s.pointArray.length)
    ∨ (s.mode = MeasureMode.Distance ∧ s.pointArray.length < 2)
    ∨ (s.mode = MeasureMode.Angle ∧ s.polylineObj.isSome ∧ ¬ 3 ≤ s.pointArray.length))

/-- clearPolyline flag of complete() (Measure.ts lines 221, 246-249, 276-279). -/
def clearPolylineFlag (s : MState) : Bool :=
  decide ((s.mode = MeasureMode.Area ∧ s.polylineObj.isSome ∧ ¬ 2 < s.pointArray.length)
    ∨ (s.mode = MeasureMode.Angle ∧ s.polylineObj.isSome ∧ ¬ 3 ≤ s.pointArray.length))

/-- The successful mode branches of complete() (Measure.ts lines 224-245
for Area, 256-275 for Angle): Area appends the first point as the closing
polyline vertex when it fits (same guard as the click handler) and places
the area label; Angle places the angle label and creates the Bézier arc
curve (createCurve tags it LABEL_NAME, line 658).  The numeric
computations (area, angle, bisector, offsets) only feed elided label
text/positions. -/
def completeModePhase (s : MState) : MState :=
  if s.mode = MeasureMode.Area ∧ s.polylineObj.isSome ∧ 2 < s.pointArray.length then
    let count := s.pointArray.length
    let s1 :=
      if count * 3 + 3 < MAX_POINTS then
        { s with
          polylineBuf := bufWrite3 s.polylineBuf (count * 3) (s.pointArray.getD 0 ⟨0, 0, 0⟩)
          polylineRange := some (count + 1) }
      else s
    addOrUpdateLabel s1
  else if s.mode = MeasureMode.Angle ∧ s.polylineObj.isSome ∧ 3 ≤ s.pointArray.length then
    let s1 := addOrUpdateLabel s
    let c : SceneObj := ⟨s1.nextId, LABEL_NAME⟩
    { s1 with curve := some c, scene := s1.scene ++ [c], nextId := s1.nextId + 1 }
  else s

/-- The invalid-measurement cleanup of complete() (Measure.ts lines
281-289): removes the points object and/or the polyline and clears their
fields. -/
def completeClearPhase (cp cl : Bool) (s : MState) : MState :=
  let s1 :=
    if cp then { s with scene := sceneRemove s.points s.scene, points := none }
    else s
  if cl then { s1 with scene := sceneRemove s1.polylineObj s1.scene, polylineObj := none }
  else s1

/-- The draggable-label registration of complete() (Measure.ts lines
291-297): traverses the surviving polyline and registers every child
named LABEL_NAME with the drag controls. -/
def completeDraggablePhase (s : MState) : MState :=
  match s.polylineObj with
  | some _ =>
      { s with draggable :=
          s.draggable ++ s.polylineChildren.filter (fun o => o.name = LABEL_NAME) }
  | none => s

/-- The teardown tail of complete() (Measure.ts lines 298-313): sets
isCompleted, resets the cursor, removes the transient points/line (and in
Distance mode the transient label) plus the area closing line and the
help label from the scene, and resets fontSize. -/
def completeFinishPhase (s : MState) : MState :=
  let sc2 := sceneRemove s.tempPoints s.scene
  let sc3 := sceneRemove s.tempLine sc2
  let sc4 :=
    if s.tempLine.isSome ∧ s.mode = MeasureMode.Distance then sceneRemove s.tempLabel sc3
    else sc3
  let sc5 := sceneRemove s.tempLineForArea sc4
  let sc6 := sceneRemove s.helpLabel sc5
  { s with isCompleted := true, cursor := "", scene := sc6, fontSize := 0 }

/-- complete() (Measure.ts lines 216-314), guarded against re-entry. -/
def complete (s : MState) : MState :=
  if s.isCompleted then s
  else
    completeFinishPhase (completeDraggablePhase
      (completeClearPhase (clearPointsFlag s) (clearPolylineFlag s)
        (completeModePhase s)))

/-- cancel() (Measure.ts lines 319-321). -/
def cancel (s : MState) : MState := close s

/-- getClosestIntersection (Measure.ts lines 518-541): returns nothing
when there is no raycaster (camera and scene always exist here) or the
session is already completed; the actual NDC conversion, recursive ray
cast, OBJ_NAME self-filter and MAX_DISTANCE cutoff are abstracted into
the oracle argument. -/
def getClosestIntersection (s : MState) (hit : Option Vec3Q) : Option Vec3Q :=
  if s.raycaster = false ∨ s.isCompleted = true then none else hit

/-- The 500 ms double-click suppression test (Measure.ts lines 434-437);
with truncated ℕ subtraction a click timestamped before the stored one is
also suppressed, matching the JS comparison on a negative difference. -/
def recentClick (last : Option ℕ) (now : ℕ) : Prop :=
  ∃ t ∈ last.toList, now - t < 500

instance (last : Option ℕ) (now : ℕ) : Decidable (recentClick last now) :=
  List.decidableBEx _ last.toList

/-- The committed-polyline branch of onMouseClicked (Measure.ts lines
453-475): when the three position components of the new vertex fit the
guard count*3+3 < MAX_POINTS the vertex is written and the draw range
extended, the pending transient label is adopted as a polyline child
(three.js add reparents it away from the scene) and recorded in
tempLineLabelArr, and a zero fontSize is seeded from tempFontSize;
otherwise a console error is logged and nothing is written. -/
def clickPolylinePhase (q : Vec3Q) (s : MState) : MState :=
  match s.polylineObj with
  | none => s
  | some _ =>
      let count := s.pointArray.length
      if count * 3 + 3 < MAX_POINTS then
        let s1 := { s with
          polylineBuf := bufWrite3 s.polylineBuf (count * 3) q
          polylineRange := some (count + 1) }
        let s2 := match s1.tempLabel with
          | some l =>
              { s1 with
                tempLineLabelArr := s1.tempLineLabelArr ++ [l]
                polylineChildren := s1.polylineChildren.erase l ++ [l]
                scene := s1.scene.erase l }
          | none => s1
        if s2.fontSize = 0 then { s2 with fontSize := s2.tempFontSize } else s2
      else
        { s with errorLog := s.errorLog ++
            ["Failed to get attributes.position, or number of points exceeded MAX_POINTS!"] }

/-- The Area faces branch of onMouseClicked (Measure.ts lines 476-498):
with more than two committed points a new triangle fan face
(first point, new point, last point) is appended to the flat vertex list,
otherwise the point itself is appended. -/
def clickFacesPhase (q : Vec3Q) (s : MState) : MState :=
  if s.mode = MeasureMode.Area ∧ s.faces.isSome then
    let len := s.pointArray.length
    if 2 < len then
      { s with pointsArray := s.pointsArray ++
          [s.pointArray.getD 0 ⟨0, 0, 0⟩, q, s.pointArray.getD (len - 1) ⟨0, 0, 0⟩] }
    else
      { s with pointsArray := s.pointsArray ++ [q] }
  else s

/-- onMouseClicked (Measure.ts lines 423-504): guards, hit test, 500 ms
double-click suppression, the polyline and faces branches, the
unconditional pointArray.push, and the Angle-mode auto-completion once at
least three points exist. -/
def onMouseClicked (hit : Option Vec3Q) (now : ℕ) (s : MState) : MState :=
  if s.raycaster = false ∨ s.isCompleted = true then s
  else
    match getClosestIntersection s hit with
    | none => s
    | some q =>
        if recentClick s.lastClickTime now then s
        else
          let s0 := { s with lastClickTime := some now }
          let s1 := clickPolylinePhase q s0
          let s2 := clickFacesPhase q s1
          let s3 := { s2 with pointArray := s2.pointArray ++ [q] }
          if s3.mode = MeasureMode.Angle ∧ 3 ≤ s3.pointArray.length then complete s3
          else s3

/-- mousedown handler (Measure.ts lines 323-325). -/
def mousedown (s : MState) : MState :=
  { s with mouseMoved := false }

/-- mousemove handler (Measure.ts lines 336-409): marks movement, runs
the hit test, upserts the help label, lazily creates the transient point
marker, and with at least one committed point lazily creates the
transient line and (Distance mode) replaces the transient distance label.
Temp-geometry vertex buffers and the discarded extra createLine(3) of the
Area branch (line 366, never stored or added) are elided. -/
def mousemove (hit : Option Vec3Q) (s : MState) : MState :=
  let s0 := { s with mouseMoved := true }
  match getClosestIntersection s0 hit with
  | none => s0
  | some _ =>
      let s1 := addHelpLabel s0
      let s2 := match s1.tempPoints with
        | some _ => s1
        | none =>
            let o : SceneObj := ⟨s1.nextId, OBJ_NAME⟩
            { s1 with tempPoints := some o, scene := s1.scene ++ [o], nextId := s1.nextId + 1 }
      if s2.pointArray = [] then s2
      else
        let s3 := addHelpLabel s2
        match s3.tempLine with
        | some _ =>
            if s3.mode = MeasureMode.Distance then addOrUpdateLabel s3 else s3
        | none =>
            let o : SceneObj := ⟨s3.nextId, OBJ_NAME⟩
            let s4 := { s3 with nextId := s3.nextId + 1 }
            let s5 := if s4.mode = MeasureMode.Distance then addOrUpdateLabel s4 else s4
            { s5 with tempLine := some o, scene := s5.scene ++ [o] }

/-- mouseup handler (Measure.ts lines 411-416): a click is registered
only when the pointer did not move since mousedown. -/
def mouseup (hit : Option Vec3Q) (now : ℕ) (s : MState) : MState :=
  if s.mouseMoved then s else onMouseClicked hit now s

/-- dblclick handler (Measure.ts lines 418-421), attached to contextmenu. -/
def dblclick (s : MState) : MState := complete s

/-- keydown handler (Measure.ts lines 506-512). -/
def keydown (k : String) (s : MState) : MState :=
  if k = "Enter" then complete s
  else if k = "Escape" then cancel s
  else s

/-- Input events: DOM events (dispatched only while the corresponding
listener is attached), the public open/close/complete API, and the
asynchronous font-load callback. -/
inductive MEvent where
  | mdown
  | mmove (hit : Option Vec3Q)
  | mup (hit : Option Vec3Q) (now : ℕ)
  | ctx
  | keyEv (k : String)
  | openEv (m : Option MeasureMode)
  | closeEv
  | completeEv
  | fontLoaded

/-- Event dispatch: DOM handlers fire only when their listener is
attached (contextmenu carries the dblclick handler, Measure.ts line 109). -/
def stepEv (e : MEvent) (s : MState) : MState :=
  match e with
  | .mdown => if "mousedown" ∈ s.listeners then mousedown s else s
  | .mmove hit => if "mousemove" ∈ s.listeners then mousemove hit s else s
  | .mup hit now => if "mouseup" ∈ s.listeners then mouseup hit now s else s
  | .ctx => if "contextmenu" ∈ s.listeners then dblclick s else s
  | .keyEv k => if "keydown" ∈ s.listeners then keydown k s else s
  | .openEv m => openTool m s
  | .closeEv => close s
  | .completeEv => complete s
  | .fontLoaded => { s with font := true }

/-- Runs a sequence of events. -/
def runEvs (evs : List MEvent) (s : MState) : MState :=
  evs.foldl (fun st e => stepEv e st) s

/-- The result of numberToString: either the default numeric-to-string
conversion of num.toString (kept symbolically, since no claim depends on
its exact digits) or the concrete string produced by num.toFixed. -/
inductive NumString where
  | plain (q : ℚ)
  | fixedTo (s : String)
deriving DecidableEq

/-- Number.prototype.toFixed for a non-negative rational: the integer n
closest to num·10^d (ties pick the larger n, per ECMA-262), rendered with
exactly d fraction digits. -/
def toFixedQ (num : ℚ) (d : ℕ) : String :=
  let n : ℤ := ⌊num * (10 : ℚ) ^ d + 1 / 2⌋
  let m : ℕ := n.toNat
  let ip : ℕ := m / 10 ^ d
  let fp : ℕ := m % 10 ^ d
  let fs : String := Nat.repr fp
  Nat.repr ip ++ "." ++ String.mk (List.replicate (d - fs.length) '0') ++ fs

/-- numberToString (Measure.ts lines 717-728). -/
def numberToString (num : ℚ) : NumString :=
  if num < 1 / 10000 then .plain num
  else
    let fractionDigits : ℕ := if num < 1 / 100 then 4 else if num < 1 / 10 then 3 else 2
    .fixedTo (toFixedQ num fractionDigits)

/-- getUnitString (Measure.ts lines 707-712). -/
def getUnitString (m : MeasureMode) : String :=
  match m with
  | MeasureMode.Distance => "m"
  | MeasureMode.Area => "m²"
  | MeasureMode.Angle => "°"

/-- A 3D point with real coordinates, for the geometric computations. -/
structure Vec3 where
  x : ℝ
  y : ℝ
  z : ℝ

/-- THREE.Vector3 subtraction. -/
def Vec3.sub (a b : Vec3) : Vec3 := ⟨a.x - b.x, a.y - b.y, a.z - b.z⟩

/-- THREE.Vector3.dot. -/
def Vec3.dot (a b : Vec3) : ℝ := a.x * b.x + a.y * b.y + a.z * b.z

/-- THREE.Vector3.lengthSq. -/
def Vec3.lengthSq (a : Vec3) : ℝ := a.x * a.x + a.y * a.y + a.z * a.z

/-- Scalar multiple of a vector. -/
def Vec3.smul (t : ℝ) (a : Vec3) : Vec3 := ⟨t * a.x, t * a.y, t * a.z⟩

/-- The zero vector. -/
def Vec3.zero : Vec3 := ⟨0, 0, 0⟩

/-- THREE.Vector3.distanceTo. -/
noncomputable def Vec3.distanceTo (a b : Vec3) : ℝ :=
  Real.sqrt ((a.sub b).lengthSq)

/-- THREE.Vector3.angleTo: acos of the clamped normalized dot product,
with the degenerate-denominator fallback of π/2 (three.js clamps with
Math.max(min, Math.min(max, value))). -/
noncomputable def Vec3.angleTo (a b : Vec3) : ℝ :=
  if Real.sqrt (a.lengthSq * b.lengthSq) = 0 then Real.pi / 2
  else Real.arccos (max (-1) (min 1 (a.dot b / Real.sqrt (a.lengthSq * b.lengthSq))))

/-- calculateAngle (Measure.ts lines 682-690): the angle between the two
direction vectors from the middle point, converted to degrees. -/
noncomputable def calculateAngle (p0 p1 p2 : Vec3) : ℝ :=
  (p0.sub p1).angleTo (p2.sub p1) * 180 / Real.pi

/-- p0, p1, p2 are collinear with p0 and p2 strictly on the same side of
p1: the direction from p1 to p2 is a positive multiple of the (nonzero)
direction from p1 to p0. -/
def SameSideCollinear (p0 p1 p2 : Vec3) : Prop :=
  p0.sub p1 ≠ Vec3.zero ∧ ∃ t : ℝ, 0 < t ∧ p2.sub p1 = Vec3.smul t (p0.sub p1)

/-- The body of one iteration of the calculateArea loop (Measure.ts lines
669-675): Heron's formula for the triangle (p0, pj, pk). -/
noncomputable def heronStep (p0 pj pk : Vec3) : ℝ :=
  let a := p0.distanceTo pj
  let b := pj.distanceTo pk
  let c := pk.distanceTo p0
  let p := (a + b + c) / 2
  Real.sqrt (p * (p - a) * (p - b) * (p - c))

/-- The calculateArea loop with i pinned at the head point: iterates over
consecutive pairs (points[j], points[j+1]) of the tail. -/
noncomputable def areaFan (p0 : Vec3) : List Vec3 → ℝ
  | pj :: pk :: rest => heronStep p0 pj pk + areaFan p0 (pk :: rest)
  | _ => 0

/-- calculateArea (Measure.ts lines 667-677). -/
noncomputable def calculateArea : List Vec3 → ℝ
  | p0 :: rest => areaFan p0 rest
  | [] => 0

/-- Modelled from the spec's words (refinement reference for C9, not from
the source): the area as the sum of Heron triangle areas of
(points[0], points[j], points[j+1]) for j from 1 to length-2. -/
noncomputable def heronFanSpec (ps : List Vec3) : ℝ :=
  ∑ j ∈ Finset.Ico 1 (ps.length - 1),
    heronStep (ps.getD 0 Vec3.zero) (ps.getD j Vec3.zero) (ps.getD (j + 1) Vec3.zero)

/-- Session invariants of an uncompleted Distance session with fewer
than two committed points, relative to its committed polyline object p:
established by open() (which creates distinct fresh objects and resets
every label/temp field) and preserved until complete() is called.  The
label-tracking clause holds because every label the tool adds to the
scene is stored in helpLabel or tempLabel, and the transient distance
label is only ever created together with the transient line
(Measure.ts lines 397-407). -/
def DistanceShortInv (s : MState) (p : SceneObj) : Prop :=
  s.mode = MeasureMode.Distance ∧
  s.pointArray.length < 2 ∧
  s.isCompleted = false ∧
  s.scene.Nodup ∧
  s.polylineObj = some p ∧
  p ∈ s.scene ∧
  s.polylineChildren = [] ∧
  (s.tempLabel = none ∨ s.tempLine.isSome = true) ∧
  (∀ o ∈ s.scene, o.name = LABEL_NAME → s.helpLabel = some o ∨ s.tempLabel = some o) ∧
  (∀ o ∈ s.points.toList, o ≠ p) ∧
  (∀ o ∈ s.tempPoints.toList, o ≠ p) ∧
  (∀ o ∈ s.tempLine.toList, o ≠ p) ∧
  (∀ o ∈ s.tempLineForArea.toList, o ≠ p) ∧
  (∀ o ∈ s.helpLabel.toList, o ≠ p) ∧
  (∀ o ∈ s.tempLabel.toList, o ≠ p)

/-- Session invariants of an uncompleted Area session with fewer than
three committed points, relative to its faces mesh f: established by
open() in Area mode and preserved until complete(); tempLabel stays
none because the transient measurement label is only created in
Distance-mode pointer moves (Measure.ts line 397) or on successful
completion. -/
def AreaShortInv (s : MState) (f : SceneObj) : Prop :=
  s.mode = MeasureMode.Area ∧
  s.pointArray.length < 3 ∧
  s.isCompleted = false ∧
  s.scene.Nodup ∧
  s.faces = some f ∧
  f ∈ s.scene ∧
  s.polylineObj.isSome = true ∧
  s.tempLabel = none ∧
  (∀ o ∈ s.scene, o.name = LABEL_NAME → s.helpLabel = some o) ∧
  (∀ o ∈ s.points.toList, o ≠ f) ∧
  (∀ o ∈ s.polylineObj.toList, o ≠ f) ∧
  (∀ o ∈ s.tempPoints.toList, o ≠ f) ∧
  (∀ o ∈ s.tempLine.toList, o ≠ f) ∧
  (∀ o ∈ s.tempLineForArea.toList, o ≠ f) ∧
  (∀ o ∈ s.helpLabel.toList, o ≠ f)

instance (s : MState) (p : SceneObj) : Decidable (DistanceShortInv s p) := by
  unfold DistanceShortInv
  exact inferInstance

instance (s : MState) (f : SceneObj) : Decidable (AreaShortInv s f) := by
  unfold AreaShortInv
  exact inferInstance

/-- The scene objects owned by the measurement tool (tagged OBJ_NAME or
LABEL_NAME, Measure.ts lines 49-50). -/
def measureOwned (o : SceneObj) : Bool :=
  o.name = OBJ_NAME ∨ o.name = LABEL_NAME

/-- The geometry objects a single open() call creates, given the fresh-id
counter at the time of the call: a point cloud, a polyline, and in Area
mode a faces mesh. -/
def openCreatedObjs (m : MeasureMode) (n : ℕ) : List SceneObj :=
  [⟨n, OBJ_NAME⟩, ⟨n + 1, OBJ_NAME⟩] ++
    (if m = MeasureMode.Area then [⟨n + 2, OBJ_NAME⟩] else [])

/-! ### Helper lemmas about scene removal -/

theorem mem_of_mem_sceneRemove {p : SceneObj} {o : Option SceneObj} {l : List SceneObj}
    (h : p ∈ sceneRemove o l) : p ∈ l := by
  cases o with
  | none => exact h
  | some x => exact List.mem_of_mem_erase h

theorem mem_sceneRemove_of_ne {p : SceneObj} {o : Option SceneObj} {l : List SceneObj}
    (hp : p ∈ l) (h : ∀ x ∈ o.toList, x ≠ p) : p ∈ sceneRemove o l := by
  cases o with
  | none => exact hp
  | some x =>
      exact (List.mem_erase_of_ne (Ne.symm (h x (by simp)))).mpr hp

theorem nodup_sceneRemove {l : List SceneObj} (h : l.Nodup) (o : Option SceneObj) :
    (sceneRemove o l).Nodup := by
  cases o with
  | none => exact h
  | some x => exact h.erase x

theorem not_mem_sceneRemove {p : SceneObj} {l : List SceneObj} (h : p ∉ l)
    (o : Option SceneObj) : p ∉ sceneRemove o l :=
  fun hmem => h (mem_of_mem_sceneRemove hmem)

theorem not_mem_sceneRemove_self {l : List SceneObj} (h : l.Nodup) (x : SceneObj) :
    x ∉ sceneRemove (some x) l :=
  h.not_mem_erase

/-! ### C2: Distance mode, fewer than two points -/

/-- C2 (counterexample to the claim as stated): in Distance mode with an
empty committed point sequence, complete() leaves the committed polyline
object in the scene — the Distance branch of complete() sets clearPoints
but never clearPolyline (Measure.ts lines 251-255), so the claim that no
committed polyline remains is false. -/
theorem C2_polyline_persists_counterexample :
    (openTool (some MeasureMode.Distance) (mkInit [] 0)).pointArray.length < 2 ∧
    (complete (openTool (some MeasureMode.Distance) (mkInit [] 0))).polylineObj
      = some ⟨1, OBJ_NAME⟩ ∧
    (⟨1, OBJ_NAME⟩ : SceneObj) ∈
      (complete (openTool (some MeasureMode.Distance) (mkInit [] 0))).scene := by
  decide

/-- C2 (amended): in Distance mode, for every committed point sequence of
length < 2, complete() removes the committed points object and every
measurement label from the scene and leaves the polyline childless, but
the committed polyline object itself remains in the scene (it is only
removed by close()). -/
theorem C2_distance_short_complete_amended (s : MState) (p : SceneObj)
    (h : DistanceShortInv s p) :
    p ∈ (complete s).scene ∧
    (complete s).polylineObj = some p ∧
    (complete s).points = none ∧
    (∀ o ∈ s.points.toList, o ∉ (complete s).scene) ∧
    (∀ o ∈ (complete s).scene, o.name ≠ LABEL_NAME) ∧
    (complete s).polylineChildren = [] := by
  obtain ⟨hmode, hlen, hnc, hnd, hpoly, hpmem, hchild, hlab, htrack,
    hpts, htp, htl, htla, hhl, htlb⟩ := h
  have hmp : completeModePhase s = s := by
    rw [completeModePhase, if_neg (by simp [hmode]), if_neg (by simp [hmode])]
  have hcp : clearPointsFlag s = true := by
    simp [clearPointsFlag, hmode, hlen]
  have hcl : clearPolylineFlag s = false := by
    simp [clearPolylineFlag, hmode]
  have hc : complete s =
      completeFinishPhase (completeDraggablePhase
        { s with scene := sceneRemove s.points s.scene, points := none }) := by
    rw [complete, if_neg (by simp [hnc]), hmp, hcp, hcl, completeClearPhase]
    simp
  have hdrag : completeDraggablePhase
      { s with scene := sceneRemove s.points s.scene, points := none } =
      { s with scene := sceneRemove s.points s.scene, points := none } := by
    rw [completeDraggablePhase]
    simp [hpoly, hchild]
  rw [hc, hdrag, completeFinishPhase]
  simp only
  set sc1 := sceneRemove s.points s.scene with hsc1
  set sc2 := sceneRemove s.tempPoints sc1 with hsc2
  set sc3 := sceneRemove s.tempLine sc2 with hsc3
  set sc4 := if s.tempLine.isSome ∧ s.mode = MeasureMode.Distance
    then sceneRemove s.tempLabel sc3 else sc3 with hsc4
  set sc5 := sceneRemove s.tempLineForArea sc4 with hsc5
  set sc6 := sceneRemove s.helpLabel sc5 with hsc6
  have hnd1 : sc1.Nodup := nodup_sceneRemove hnd _
  have hnd2 : sc2.Nodup := nodup_sceneRemove hnd1 _
  have hnd3 : sc3.Nodup := nodup_sceneRemove hnd2 _
  have hnd4 : sc4.Nodup := by
    rw [hsc4]; split
    · exact nodup_sceneRemove hnd3 _
    · exact hnd3
  have hnd5 : sc5.Nodup := nodup_sceneRemove hnd4 _
  have hmem4 : ∀ q ∈ sc4, q ∈ sc3 := by
    intro q hq
    rw [hsc4] at hq
    revert hq; split
    · exact fun hq => mem_of_mem_sceneRemove hq
    · exact fun hq => hq
  have hnotmem4 : ∀ q, q ∉ sc3 → q ∉ sc4 := fun q hq hq4 => hq (hmem4 q hq4)
  refine ⟨?_, ?_, ?_, ?_, ?_, ?_⟩
  · -- p survives every removal
    have h1 : p ∈ sc1 := mem_sceneRemove_of_ne hpmem (fun x hx => hpts x hx)
    have h2 : p ∈ sc2 := mem_sceneRemove_of_ne h1 (fun x hx => htp x hx)
    have h3 : p ∈ sc3 := mem_sceneRemove_of_ne h2 (fun x hx => htl x hx)
    have h4 : p ∈ sc4 := by
      rw [hsc4]; split
      · exact mem_sceneRemove_of_ne h3 (fun x hx => htlb x hx)
      · exact h3
    have h5 : p ∈ sc5 := mem_sceneRemove_of_ne h4 (fun x hx => htla x hx)
    exact mem_sceneRemove_of_ne h5 (fun x hx => hhl x hx)
  · exact hpoly
  · trivial
  · -- the points object is gone
    intro o ho
    cases hp : s.points with
    | none => simp [hp] at ho
    | some x =>
        have hox : o = x := by simpa [hp] using ho
        subst hox
        have h1 : o ∉ sc1 := by
          rw [hsc1, hp]
          exact not_mem_sceneRemove_self hnd o
        have h2 : o ∉ sc2 := not_mem_sceneRemove h1 _
        have h3 : o ∉ sc3 := not_mem_sceneRemove h2 _
        have h4 : o ∉ sc4 := hnotmem4 o h3
        have h5 : o ∉ sc5 := not_mem_sceneRemove h4 _
        exact not_mem_sceneRemove h5 _
  · -- no measurement label remains
    intro o ho hname
    have m5 : o ∈ sc5 := mem_of_mem_sceneRemove ho
    have m4 : o ∈ sc4 := mem_of_mem_sceneRemove m5
    have m3 : o ∈ sc3 := hmem4 o m4
    have m2 : o ∈ sc2 := mem_of_mem_sceneRemove m3
    have m1 : o ∈ sc1 := mem_of_mem_sceneRemove m2
    have hos : o ∈ s.scene := mem_of_mem_sceneRemove m1
    rcases htrack o hos hname with hHelp | hTemp
    · -- help label: erased by the last removal
      have : o ∉ sc6 := by
        rw [hsc6, hHelp]
        exact not_mem_sceneRemove_self hnd5 o
      exact this ho
    · -- transient label: erased together with the transient line
      rcases hlab with hnoneL | hsomeL
      · rw [hTemp] at hnoneL; cases hnoneL
      · have hcond : s.tempLine.isSome ∧ s.mode = MeasureMode.Distance := ⟨hsomeL, hmode⟩
        have h4 : o ∉ sc4 := by
          rw [hsc4, if_pos hcond, hTemp]
          exact not_mem_sceneRemove_self hnd3 o
        exact not_mem_sceneRemove (not_mem_sceneRemove h4 _) _ ho
  · exact hchild

/-- A concrete mid-session Distance state: font loaded, one committed
click, one pointer move (so the transient marker, line, labels all
exist). -/
def stateC2 : MState :=
  runEvs [.fontLoaded, .mdown, .mup (some ⟨1, 0, 0⟩) 0, .mmove (some ⟨2, 0, 0⟩)]
    (openTool (some MeasureMode.Distance) (mkInit [] 0))

theorem C2_distance_short_complete_amended_witness :
    (⟨1, OBJ_NAME⟩ : SceneObj) ∈ (complete stateC2).scene :=
  (C2_distance_short_complete_amended stateC2 ⟨1, OBJ_NAME⟩ (by decide)).1

/-! ### C3: Area mode, fewer than three points -/

/-- C3 (counterexample to the claim as stated): in Area mode with an
empty committed point sequence, complete() leaves the committed
filled-polygon (faces) mesh in the scene — complete() never touches
this.faces (Measure.ts lines 216-314), which only close() removes — so
the claim that no committed filled-polygon object remains is false. -/
theorem C3_faces_persist_counterexample :
    (openTool (some MeasureMode.Area) (mkInit [] 0)).pointArray.length < 3 ∧
    (complete (openTool (some MeasureMode.Area) (mkInit [] 0))).faces
      = some ⟨2, OBJ_NAME⟩ ∧
    (⟨2, OBJ_NAME⟩ : SceneObj) ∈
      (complete (openTool (some MeasureMode.Area) (mkInit [] 0))).scene := by
  decide

/-- C3 (amended): in Area mode, for every committed point sequence of
length < 3, complete() removes the committed points object, the
committed polyline object and every measurement label from the scene,
but the committed filled-polygon (faces) mesh remains in the scene (it
is only removed by close()). -/
theorem C3_area_short_complete_amended (s : MState) (f : SceneObj)
    (h : AreaShortInv s f) :
    f ∈ (complete s).scene ∧
    (complete s).faces = some f ∧
    (complete s).points = none ∧
    (complete s).polylineObj = none ∧
    (∀ o ∈ s.points.toList, o ∉ (complete s).scene) ∧
    (∀ o ∈ s.polylineObj.toList, o ∉ (complete s).scene) ∧
    (∀ o ∈ (complete s).scene, o.name ≠ LABEL_NAME) := by
  obtain ⟨hmode, hlen, hnc, hnd, hfaces, hfmem, hpolysome, htlabel, htrack,
    hpts, hpl, htp, htl, htla, hhl⟩ := h
  have hmp : completeModePhase s = s := by
    rw [completeModePhase,
      if_neg (fun hcond => absurd hcond.2.2 (by omega)),
      if_neg (by simp [hmode])]
  have hcp : clearPointsFlag s = true := by
    simp only [clearPointsFlag, decide_eq_true_eq]
    exact Or.inl ⟨hmode, hpolysome, by omega⟩
  have hcl : clearPolylineFlag s = true := by
    simp only [clearPolylineFlag, decide_eq_true_eq]
    exact Or.inl ⟨hmode, hpolysome, by omega⟩
  have hc : complete s =
      completeFinishPhase (completeDraggablePhase
        { s with scene := sceneRemove s.polylineObj (sceneRemove s.points s.scene),
                 points := none, polylineObj := none }) := by
    rw [complete, if_neg (by simp [hnc]), hmp, hcp, hcl, completeClearPhase]
    simp
  have hdrag : completeDraggablePhase
      { s with scene := sceneRemove s.polylineObj (sceneRemove s.points s.scene),
               points := none, polylineObj := none } =
      { s with scene := sceneRemove s.polylineObj (sceneRemove s.points s.scene),
               points := none, polylineObj := none } := by
    rw [completeDraggablePhase]
  rw [hc, hdrag, completeFinishPhase]
  simp only
  set sc0 := sceneRemove s.points s.scene with hsc0
  set sc1 := sceneRemove s.polylineObj sc0 with hsc1
  set sc2 := sceneRemove s.tempPoints sc1 with hsc2
  set sc3 := sceneRemove s.tempLine sc2 with hsc3
  have hcond4 : ¬ (s.tempLine.isSome = true ∧ s.mode = MeasureMode.Distance) := by
    rintro ⟨-, hm⟩
    rw [hmode] at hm
    cases hm
  rw [if_neg hcond4]
  set sc5 := sceneRemove s.tempLineForArea sc3 with hsc5
  set sc6 := sceneRemove s.helpLabel sc5 with hsc6
  have hnd0 : sc0.Nodup := nodup_sceneRemove hnd _
  have hnd1 : sc1.Nodup := nodup_sceneRemove hnd0 _
  have hnd2 : sc2.Nodup := nodup_sceneRemove hnd1 _
  have hnd3 : sc3.Nodup := nodup_sceneRemove hnd2 _
  have hnd5 : sc5.Nodup := nodup_sceneRemove hnd3 _
  refine ⟨?_, hfaces, trivial, trivial, ?_, ?_, ?_⟩
  · -- the faces mesh survives every removal
    have h0 : f ∈ sc0 := mem_sceneRemove_of_ne hfmem (fun x hx => hpts x hx)
    have h1 : f ∈ sc1 := mem_sceneRemove_of_ne h0 (fun x hx => hpl x hx)
    have h2 : f ∈ sc2 := mem_sceneRemove_of_ne h1 (fun x hx => htp x hx)
    have h3 : f ∈ sc3 := mem_sceneRemove_of_ne h2 (fun x hx => htl x hx)
    have h5 : f ∈ sc5 := mem_sceneRemove_of_ne h3 (fun x hx => htla x hx)
    exact mem_sceneRemove_of_ne h5 (fun x hx => hhl x hx)
  · -- the points object is gone
    intro o ho
    cases hp : s.points with
    | none => simp [hp] at ho
    | some x =>
        have hox : o = x := by simpa [hp] using ho
        subst hox
        have h0 : o ∉ sc0 := by
          rw [hsc0, hp]
          exact not_mem_sceneRemove_self hnd o
        have h1 : o ∉ sc1 := not_mem_sceneRemove h0 _
        have h2 : o ∉ sc2 := not_mem_sceneRemove h1 _
        have h3 : o ∉ sc3 := not_mem_sceneRemove h2 _
        have h5 : o ∉ sc5 := not_mem_sceneRemove h3 _
        exact not_mem_sceneRemove h5 _
  · -- the polyline object is gone
    intro o ho
    cases hp : s.polylineObj with
    | none => simp [hp] at ho
    | some x =>
        have hox : o = x := by simpa [hp] using ho
        subst hox
        have h1 : o ∉ sc1 := by
          rw [hsc1, hp]
          exact not_mem_sceneRemove_self hnd0 o
        have h2 : o ∉ sc2 := not_mem_sceneRemove h1 _
        have h3 : o ∉ sc3 := not_mem_sceneRemove h2 _
        have h5 : o ∉ sc5 := not_mem_sceneRemove h3 _
        exact not_mem_sceneRemove h5 _
  · -- no measurement label remains
    intro o ho hname
    have m5 : o ∈ sc5 := mem_of_mem_sceneRemove ho
    have m3 : o ∈ sc3 := mem_of_mem_sceneRemove m5
    have m2 : o ∈ sc2 := mem_of_mem_sceneRemove m3
    have m1 : o ∈ sc1 := mem_of_mem_sceneRemove m2
    have m0 : o ∈ sc0 := mem_of_mem_sceneRemove m1
    have hos : o ∈ s.scene := mem_of_mem_sceneRemove m0
    have hHelp : s.helpLabel = some o := htrack o hos hname
    have : o ∉ sc6 := by
      rw [hsc6, hHelp]
      exact not_mem_sceneRemove_self hnd5 o
    exact this ho

/-- A concrete mid-session Area state: font loaded, two committed clicks
and pointer moves in between. -/
def stateC3 : MState :=
  runEvs [.fontLoaded, .mdown, .mup (some ⟨1, 0, 0⟩) 0, .mmove (some ⟨1, 1, 0⟩),
      .mdown, .mup (some ⟨2, 0, 0⟩) 600, .mmove (some ⟨3, 0, 0⟩)]
    (openTool (some MeasureMode.Area) (mkInit [] 0))

theorem C3_area_short_complete_amended_witness :
    (⟨2, OBJ_NAME⟩ : SceneObj) ∈ (complete stateC3).scene :=
  (C3_area_short_complete_amended stateC3 ⟨2, OBJ_NAME⟩ (by decide)).1

/-! ### C1: point capacity -/

/-- C1 (code bug): a primary click on a session that already holds
MAX_POINTS committed points logs the capacity error and leaves the
preallocated polyline vertex buffer and draw range untouched, yet still
appends the point: pointArray grows to MAX_POINTS + 1, because the
pointArray.push of Measure.ts line 500 is outside the guarded branch of
lines 456-473 (whose guard count*3+3 < MAX_POINTS moreover trips long
before MAX_POINTS points, from the 34th click on). -/
theorem C1_capacity_overflow_bug (s : MState) (q : Vec3Q) (now : ℕ)
    (hray : s.raycaster = true)
    (hnc : s.isCompleted = false)
    (hdeb : ¬ recentClick s.lastClickTime now)
    (hpoly : s.polylineObj.isSome = true)
    (hmode : s.mode = MeasureMode.Distance)
    (hlen : s.pointArray.length = MAX_POINTS) :
    (onMouseClicked (some q) now s).pointArray.length = MAX_POINTS + 1 ∧
    (onMouseClicked (some q) now s).errorLog = s.errorLog ++
      ["Failed to get attributes.position, or number of points exceeded MAX_POINTS!"] ∧
    (onMouseClicked (some q) now s).polylineBuf = s.polylineBuf ∧
    (onMouseClicked (some q) now s).polylineRange = s.polylineRange := by
  obtain ⟨pl, hpl⟩ := Option.isSome_iff_exists.mp hpoly
  have hgci : getClosestIntersection s (some q) = some q := by
    rw [getClosestIntersection, if_neg (by simp [hray, hnc])]
  have hstep : onMouseClicked (some q) now s =
      { s with lastClickTime := some now,
               errorLog := s.errorLog ++
                 ["Failed to get attributes.position, or number of points exceeded MAX_POINTS!"],
               pointArray := s.pointArray ++ [q] } := by
    rw [onMouseClicked, if_neg (by simp [hray, hnc]), hgci]
    dsimp only
    rw [if_neg hdeb]
    simp only [clickPolylinePhase, clickFacesPhase, hpl, hmode, hlen]
    simp [MAX_POINTS]
  rw [hstep]
  refine ⟨?_, rfl, rfl, rfl⟩
  simp [hlen]

/-- A Distance session that already holds MAX_POINTS committed points. -/
def stateC1 : MState :=
  { openTool (some MeasureMode.Distance) (mkInit [] 0) with
    pointArray := List.replicate MAX_POINTS ⟨0, 0, 0⟩ }

theorem C1_capacity_overflow_bug_witness :
    (onMouseClicked (some ⟨1, 2, 3⟩) 0 stateC1).pointArray.length = MAX_POINTS + 1 :=
  (C1_capacity_overflow_bug stateC1 ⟨1, 2, 3⟩ 0 (by decide) (by decide) (by decide)
    (by decide) (by decide) (by decide)).1

/-! ### C4: listener detachment on close -/

theorem close_listeners (s : MState) :
    (close s).listeners =
      ((((s.listeners.erase "mousedown").erase "mousemove").erase
        "mouseup").erase "dblclick").erase "keydown" := rfl

theorem close_isCompleted (s : MState) : (close s).isCompleted = s.isCompleted := rfl

theorem openSetupPhase_listeners (t : MState) :
    (openSetupPhase t).listeners =
      addListener (addListener (addListener (addListener (addListener
        t.listeners "mousedown") "mousemove") "mouseup") "contextmenu") "keydown" := by
  rw [openSetupPhase]
  dsimp only
  split <;> rfl

theorem openSetupPhase_isCompleted (t : MState) :
    (openSetupPhase t).isCompleted = false := by
  rw [openSetupPhase]

theorem openTool_listeners (m : Option MeasureMode) (s : MState) :
    (openTool m s).listeners =
      addListener (addListener (addListener (addListener (addListener
        (close (match m with | some mm => { s with mode := mm } | none => s)).listeners
        "mousedown") "mousemove") "mouseup") "contextmenu") "keydown" := by
  rw [openTool.eq_def, openSetupPhase_listeners]

theorem openTool_isCompleted (m : Option MeasureMode) (s : MState) :
    (openTool m s).isCompleted = false := by
  rw [openTool.eq_def, openSetupPhase_isCompleted]

theorem mem_addListener_self (l : List String) (nm : String) : nm ∈ addListener l nm := by
  rw [addListener]
  split
  · assumption
  · simp

theorem mem_addListener_of_mem {l : List String} {a : String} (h : a ∈ l) (nm : String) :
    a ∈ addListener l nm := by
  rw [addListener]
  split
  · exact h
  · simp [h]

theorem nodup_addListener {l : List String} (h : l.Nodup) (nm : String) :
    (addListener l nm).Nodup := by
  rw [addListener]
  split
  · exact h
  · next hmem => simp [List.nodup_append, h, hmem]

theorem not_mem_erase_of_not_mem {α : Type} [DecidableEq α] {a b : α} {l : List α}
    (h : a ∉ l) : a ∉ l.erase b :=
  fun hm => h (List.mem_of_mem_erase hm)

theorem complete_isCompleted (s : MState) : (complete s).isCompleted = true := by
  rw [complete]
  split
  · assumption
  · rfl

/-- C4 (code bug): after close() the contextmenu listener attached by
open() is still attached — open() registers the dblclick handler under
contextmenu (Measure.ts line 109) but close() calls removeEventListener
with type dblclick (line 143) — so a contextmenu event on the canvas
still fires the handler, driving the closed session to isCompleted; the
other four listeners are detached as the claim states. -/
theorem C4_contextmenu_leak_bug (m : Option MeasureMode) (s : MState)
    (hnd : s.listeners.Nodup) :
    "contextmenu" ∈ (close (openTool m s)).listeners ∧
    "mousedown" ∉ (close (openTool m s)).listeners ∧
    "mousemove" ∉ (close (openTool m s)).listeners ∧
    "mouseup" ∉ (close (openTool m s)).listeners ∧
    "keydown" ∉ (close (openTool m s)).listeners ∧
    (close (openTool m s)).isCompleted = false ∧
    (stepEv MEvent.ctx (close (openTool m s))).isCompleted = true := by
  obtain ⟨s0, hs0eq, hs0l⟩ :
      ∃ s0, openTool m s = openSetupPhase (close s0) ∧ s0.listeners = s.listeners := by
    cases m with
    | none => exact ⟨s, rfl, rfl⟩
    | some mm => exact ⟨{ s with mode := mm }, rfl, rfl⟩
  rw [hs0eq]
  have hnd0 : (close s0).listeners.Nodup := by
    rw [close_listeners, hs0l]
    exact ((((hnd.erase _).erase _).erase _).erase _).erase _
  have hA := openSetupPhase_listeners (close s0)
  have hndA : (openSetupPhase (close s0)).listeners.Nodup := by
    rw [hA]
    exact nodup_addListener (nodup_addListener (nodup_addListener (nodup_addListener
      (nodup_addListener hnd0 _) _) _) _) _
  have hctx : "contextmenu" ∈ (openSetupPhase (close s0)).listeners := by
    rw [hA]
    exact mem_addListener_of_mem (mem_addListener_self _ _) _
  have hres : (close (openSetupPhase (close s0))).listeners =
      (((((openSetupPhase (close s0)).listeners.erase "mousedown").erase
        "mousemove").erase "mouseup").erase "dblclick").erase "keydown" := close_listeners _
  have hmem : "contextmenu" ∈ (close (openSetupPhase (close s0))).listeners := by
    rw [hres]
    exact (List.mem_erase_of_ne (by decide)).mpr ((List.mem_erase_of_ne (by decide)).mpr
      ((List.mem_erase_of_ne (by decide)).mpr ((List.mem_erase_of_ne (by decide)).mpr
        ((List.mem_erase_of_ne (by decide)).mpr hctx))))
  refine ⟨hmem, ?_, ?_, ?_, ?_, ?_, ?_⟩
  · rw [hres]
    exact not_mem_erase_of_not_mem (not_mem_erase_of_not_mem (not_mem_erase_of_not_mem
      (not_mem_erase_of_not_mem hndA.not_mem_erase)))
  · rw [hres]
    exact not_mem_erase_of_not_mem (not_mem_erase_of_not_mem (not_mem_erase_of_not_mem
      (hndA.erase _).not_mem_erase))
  · rw [hres]
    exact not_mem_erase_of_not_mem (not_mem_erase_of_not_mem
      ((hndA.erase _).erase _).not_mem_erase)
  · rw [hres]
    exact ((((hndA.erase _).erase _).erase _).erase _).not_mem_erase
  · rw [close_isCompleted]
    exact openSetupPhase_isCompleted _
  · show (stepEv MEvent.ctx (close (openSetupPhase (close s0)))).isCompleted = true
    rw [stepEv]
    rw [if_pos hmem]
    exact complete_isCompleted _

/-- C4 witness state fact: the leak is exhibited on a concrete session. -/
theorem C4_contextmenu_leak_bug_witness :
    "contextmenu" ∈ (close (openTool (some MeasureMode.Distance) (mkInit [] 0))).listeners :=
  (C4_contextmenu_leak_bug (some MeasureMode.Distance) (mkInit [] 0) (by decide)).1

/-! ### Projection lemmas for the click and completion phases -/

@[simp]
theorem addOrUpdateLabel_pointArray (s : MState) :
    (addOrUpdateLabel s).pointArray = s.pointArray := by
  rw [addOrUpdateLabel]
  split
  · rfl
  · dsimp only
    split <;> rfl

@[simp]
theorem addOrUpdateLabel_mode (s : MState) : (addOrUpdateLabel s).mode = s.mode := by
  rw [addOrUpdateLabel]
  split
  · rfl
  · dsimp only
    split <;> rfl

@[simp]
theorem addOrUpdateLabel_isCompleted (s : MState) :
    (addOrUpdateLabel s).isCompleted = s.isCompleted := by
  rw [addOrUpdateLabel]
  split
  · rfl
  · dsimp only
    split <;> rfl

@[simp]
theorem addOrUpdateLabel_lastClickTime (s : MState) :
    (addOrUpdateLabel s).lastClickTime = s.lastClickTime := by
  rw [addOrUpdateLabel]
  split
  · rfl
  · dsimp only
    split <;> rfl

@[simp]
theorem clickPolylinePhase_pointArray (q : Vec3Q) (s : MState) :
    (clickPolylinePhase q s).pointArray = s.pointArray := by
  rw [clickPolylinePhase]
  split
  · rfl
  · dsimp only
    split
    · split <;> split <;> rfl
    · rfl

@[simp]
theorem clickPolylinePhase_mode (q : Vec3Q) (s : MState) :
    (clickPolylinePhase q s).mode = s.mode := by
  rw [clickPolylinePhase]
  split
  · rfl
  · dsimp only
    split
    · split <;> split <;> rfl
    · rfl

@[simp]
theorem clickPolylinePhase_isCompleted (q : Vec3Q) (s : MState) :
    (clickPolylinePhase q s).isCompleted = s.isCompleted := by
  rw [clickPolylinePhase]
  split
  · rfl
  · dsimp only
    split
    · split <;> split <;> rfl
    · rfl

@[simp]
theorem clickPolylinePhase_lastClickTime (q : Vec3Q) (s : MState) :
    (clickPolylinePhase q s).lastClickTime = s.lastClickTime := by
  rw [clickPolylinePhase]
  split
  · rfl
  · dsimp only
    split
    · split <;> split <;> rfl
    · rfl

@[simp]
theorem clickFacesPhase_pointArray (q : Vec3Q) (s : MState) :
    (clickFacesPhase q s).pointArray = s.pointArray := by
  rw [clickFacesPhase]
  split
  · dsimp only
    split <;> rfl
  · rfl

@[simp]
theorem clickFacesPhase_mode (q : Vec3Q) (s : MState) :
    (clickFacesPhase q s).mode = s.mode := by
  rw [clickFacesPhase]
  split
  · dsimp only
    split <;> rfl
  · rfl

@[simp]
theorem clickFacesPhase_isCompleted (q : Vec3Q) (s : MState) :
    (clickFacesPhase q s).isCompleted = s.isCompleted := by
  rw [clickFacesPhase]
  split
  · dsimp only
    split <;> rfl
  · rfl

@[simp]
theorem clickFacesPhase_lastClickTime (q : Vec3Q) (s : MState) :
    (clickFacesPhase q s).lastClickTime = s.lastClickTime := by
  rw [clickFacesPhase]
  split
  · dsimp only
    split <;> rfl
  · rfl

@[simp]
theorem completeModePhase_pointArray (s : MState) :
    (completeModePhase s).pointArray = s.pointArray := by
  rw [completeModePhase]
  split
  · dsimp only
    rw [addOrUpdateLabel_pointArray]
    split <;> rfl
  · split
    · dsimp only
      rw [addOrUpdateLabel_pointArray]
    · rfl

@[simp]
theorem completeModePhase_lastClickTime (s : MState) :
    (completeModePhase s).lastClickTime = s.lastClickTime := by
  rw [completeModePhase]
  split
  · dsimp only
    rw [addOrUpdateLabel_lastClickTime]
    split <;> rfl
  · split
    · dsimp only
      rw [addOrUpdateLabel_lastClickTime]
    · rfl

@[simp]
theorem completeClearPhase_pointArray (cp cl : Bool) (s : MState) :
    (completeClearPhase cp cl s).pointArray = s.pointArray := by
  rw [completeClearPhase]
  split <;> split <;> rfl

@[simp]
theorem completeClearPhase_lastClickTime (cp cl : Bool) (s : MState) :
    (completeClearPhase cp cl s).lastClickTime = s.lastClickTime := by
  rw [completeClearPhase]
  split <;> split <;> rfl

@[simp]
theorem completeDraggablePhase_pointArray (s : MState) :
    (completeDraggablePhase s).pointArray = s.pointArray := by
  rw [completeDraggablePhase]
  split <;> rfl

@[simp]
theorem completeDraggablePhase_lastClickTime (s : MState) :
    (completeDraggablePhase s).lastClickTime = s.lastClickTime := by
  rw [completeDraggablePhase]
  split <;> rfl

@[simp]
theorem completeFinishPhase_pointArray (s : MState) :
    (completeFinishPhase s).pointArray = s.pointArray := rfl

@[simp]
theorem completeFinishPhase_lastClickTime (s : MState) :
    (completeFinishPhase s).lastClickTime = s.lastClickTime := rfl

theorem complete_pointArray (s : MState) : (complete s).pointArray = s.pointArray := by
  rw [complete]
  split
  · rfl
  · rw [completeFinishPhase_pointArray, completeDraggablePhase_pointArray,
      completeClearPhase_pointArray, completeModePhase_pointArray]

theorem complete_lastClickTime (s : MState) :
    (complete s).lastClickTime = s.lastClickTime := by
  rw [complete]
  split
  · rfl
  · rw [completeFinishPhase_lastClickTime, completeDraggablePhase_lastClickTime,
      completeClearPhase_lastClickTime, completeModePhase_lastClickTime]

/-! ### C5: Angle mode auto-completion -/

/-- C5: in Angle mode the session completes exactly when the 3rd point is
committed: an accepted primary click on a 2-point session appends the
point and immediately runs complete() (Measure.ts lines 501-503), while
clicks on shorter sessions leave the session uncompleted; afterwards
isCompleted gates the click handler (line 424), the pointer-up path and
the hit test (line 519), and a re-entrant complete() is a no-op
(lines 217-219). -/
theorem C5_angle_autocomplete (s : MState) (q : Vec3Q) (hit : Option Vec3Q) (now : ℕ) :
    (s.mode = MeasureMode.Angle → s.raycaster = true → s.isCompleted = false →
      ¬ recentClick s.lastClickTime now → s.pointArray.length = 2 →
      (onMouseClicked (some q) now s).isCompleted = true ∧
      (onMouseClicked (some q) now s).pointArray = s.pointArray ++ [q]) ∧
    (s.isCompleted = false → s.pointArray.length < 2 →
      (onMouseClicked (some q) now s).isCompleted = false) ∧
    (s.isCompleted = true → onMouseClicked hit now s = s) ∧
    (s.isCompleted = true → mouseup hit now s = s) ∧
    (s.isCompleted = true → getClosestIntersection s hit = none) ∧
    (s.isCompleted = true → complete s = s) := by
  refine ⟨?_, ?_, ?_, ?_, ?_, ?_⟩
  · intro hmode hray hnc hdeb hlen
    have hgci : getClosestIntersection s (some q) = some q := by
      rw [getClosestIntersection, if_neg (by simp [hray, hnc])]
    rw [onMouseClicked, if_neg (by simp [hray, hnc]), hgci]
    dsimp only
    rw [if_neg hdeb]
    rw [if_pos (by simp [hmode, hlen])]
    constructor
    · exact complete_isCompleted _
    · rw [complete_pointArray]
      simp
  · intro hnc hlen
    rw [onMouseClicked]
    split
    · exact hnc
    · next hguard =>
        have hgci : getClosestIntersection s (some q) = some q := by
          rw [getClosestIntersection, if_neg hguard]
        rw [hgci]
        dsimp only
        split
        · exact hnc
        · split
          · next hcond =>
              exfalso
              have h3 := hcond.2
              simp at h3
              omega
          · simp [hnc]
  · intro hcompleted
    rw [onMouseClicked, if_pos (Or.inr hcompleted)]
  · intro hcompleted
    rw [mouseup]
    split
    · rfl
    · rw [onMouseClicked, if_pos (Or.inr hcompleted)]
  · intro hcompleted
    rw [getClosestIntersection, if_pos (Or.inr hcompleted)]
  · intro hcompleted
    rw [complete, if_pos hcompleted]

/-- A concrete Angle session holding two committed points. -/
def stateC5 : MState :=
  runEvs [.mdown, .mup (some ⟨1, 0, 0⟩) 0, .mdown, .mup (some ⟨2, 0, 0⟩) 600]
    (openTool (some MeasureMode.Angle) (mkInit [] 0))

theorem C5_angle_autocomplete_witness :
    (onMouseClicked (some ⟨3, 0, 0⟩) 1200 stateC5).isCompleted = true :=
  ((C5_angle_autocomplete stateC5 ⟨3, 0, 0⟩ none 1200).1 (by decide) (by decide)
    (by decide) (by decide) (by decide)).1

/-! ### C10: double-click suppression across sessions -/

theorem openSetupPhase_lastClickTime (t : MState) :
    (openSetupPhase t).lastClickTime = t.lastClickTime := by
  rw [openSetupPhase]
  dsimp only
  split <;> rfl

theorem close_lastClickTime (s : MState) : (close s).lastClickTime = s.lastClickTime := rfl

/-- C10 (counterexample to the claim as stated): with accepted clicks at
t = 0 and t = 800 and a rejected click at t = 400 in between, the clicks
at 400 and 800 form a pair of primary clicks less than 500 ms apart whose
second click does commit a point — a rejected click does not refresh
lastClickTime (Measure.ts line 438 runs only on acceptance), so the
suppression window is measured from the last accepted click, not from the
previous click. -/
theorem C10_debounce_pair_counterexample :
    (800 : ℕ) - 400 < 500 ∧
    (runEvs [.mdown, .mup (some ⟨1, 0, 0⟩) 0, .mdown, .mup (some ⟨2, 0, 0⟩) 400]
      (openTool (some MeasureMode.Distance) (mkInit [] 0))).pointArray.length = 1 ∧
    (runEvs [.mdown, .mup (some ⟨1, 0, 0⟩) 0, .mdown, .mup (some ⟨2, 0, 0⟩) 400,
        .mdown, .mup (some ⟨3, 0, 0⟩) 800]
      (openTool (some MeasureMode.Distance) (mkInit [] 0))).pointArray.length = 2 := by
  decide

/-- C10 (amended): lastClickTime is never reset by open(), close() or
complete(), and every primary click less than 500 ms after the most
recent accepted click is silently rejected (the whole state, including
lastClickTime, is unchanged) — in particular this persists across
sessions, so the first click of a freshly opened session is rejected when
it falls within 500 ms of the previous session's last accepted click. -/
theorem C10_debounce_amended (m : Option MeasureMode) (s : MState) (q : Vec3Q)
    (now t : ℕ) :
    (openTool m s).lastClickTime = s.lastClickTime ∧
    (close s).lastClickTime = s.lastClickTime ∧
    (complete s).lastClickTime = s.lastClickTime ∧
    (s.lastClickTime = some t → now - t < 500 → onMouseClicked (some q) now s = s) := by
  refine ⟨?_, close_lastClickTime s, complete_lastClickTime s, ?_⟩
  · cases m with
    | none =>
        rw [openTool.eq_def]
        dsimp only
        rw [openSetupPhase_lastClickTime]
        rfl
    | some mm =>
        rw [openTool.eq_def]
        dsimp only
        rw [openSetupPhase_lastClickTime]
        rfl
  · intro hlast hlt
    rw [onMouseClicked]
    split
    · rfl
    · next hguard =>
        have hgci : getClosestIntersection s (some q) = some q := by
          rw [getClosestIntersection, if_neg hguard]
        rw [hgci]
        dsimp only
        rw [if_pos ⟨t, by simp [hlast], hlt⟩]

/-- A Distance session whose last accepted click happened at t = 400. -/
def stateC10 : MState :=
  runEvs [.mdown, .mup (some ⟨1, 0, 0⟩) 400]
    (openTool (some MeasureMode.Distance) (mkInit [] 0))

theorem C10_debounce_amended_witness :
    onMouseClicked (some ⟨9, 9, 9⟩) 700 stateC10 = stateC10 :=
  (C10_debounce_amended none stateC10 ⟨9, 9, 9⟩ 700 400).2.2.2 (by decide) (by decide)

/-! ### C6: lifecycle — open closes first, close is idempotent, no leak -/

theorem close_scene (s : MState) :
    (close s).scene =
      sceneRemove s.tempLabel (sceneRemove s.helpLabel (sceneRemove s.curve
        (sceneRemove s.faces (sceneRemove s.polylineObj (sceneRemove s.points
          (sceneRemove s.tempLineForArea (sceneRemove s.tempLine
            (sceneRemove s.tempPoints s.scene)))))))) := rfl

theorem close_scene_subset {s : MState} : ∀ x ∈ (close s).scene, x ∈ s.scene := by
  intro x hx
  rw [close_scene] at hx
  exact mem_of_mem_sceneRemove (mem_of_mem_sceneRemove (mem_of_mem_sceneRemove
    (mem_of_mem_sceneRemove (mem_of_mem_sceneRemove (mem_of_mem_sceneRemove
      (mem_of_mem_sceneRemove (mem_of_mem_sceneRemove (mem_of_mem_sceneRemove hx))))))))

theorem close_scene_nodup {s : MState} (h : s.scene.Nodup) : (close s).scene.Nodup := by
  rw [close_scene]
  exact nodup_sceneRemove (nodup_sceneRemove (nodup_sceneRemove (nodup_sceneRemove
    (nodup_sceneRemove (nodup_sceneRemove (nodup_sceneRemove (nodup_sceneRemove
      (nodup_sceneRemove h _) _) _) _) _) _) _) _) _

theorem faces_not_mem_close_scene {s : MState} (hnd : s.scene.Nodup) :
    ∀ x, s.faces = some x → x ∉ (close s).scene := by
  intro x hx
  rw [close_scene, hx]
  have hnd4 : (sceneRemove s.polylineObj (sceneRemove s.points (sceneRemove
      s.tempLineForArea (sceneRemove s.tempLine (sceneRemove s.tempPoints
        s.scene))))).Nodup :=
    nodup_sceneRemove (nodup_sceneRemove (nodup_sceneRemove (nodup_sceneRemove
      (nodup_sceneRemove hnd _) _) _) _) _
  exact not_mem_sceneRemove (not_mem_sceneRemove (not_mem_sceneRemove
    (not_mem_sceneRemove_self hnd4 x) _) _) _

theorem curve_not_mem_close_scene {s : MState} (hnd : s.scene.Nodup) :
    ∀ x, s.curve = some x → x ∉ (close s).scene := by
  intro x hx
  rw [close_scene, hx]
  have hnd5 : (sceneRemove s.faces (sceneRemove s.polylineObj (sceneRemove s.points
      (sceneRemove s.tempLineForArea (sceneRemove s.tempLine (sceneRemove s.tempPoints
        s.scene)))))).Nodup :=
    nodup_sceneRemove (nodup_sceneRemove (nodup_sceneRemove (nodup_sceneRemove
      (nodup_sceneRemove (nodup_sceneRemove hnd _) _) _) _) _) _
  exact not_mem_sceneRemove (not_mem_sceneRemove (not_mem_sceneRemove_self hnd5 x) _) _

theorem openSetupPhase_scene (t : MState) :
    (openSetupPhase t).scene = t.scene ++ openCreatedObjs t.mode t.nextId := by
  by_cases hm : t.mode = MeasureMode.Area
  · rw [openSetupPhase, openCreatedObjs]
    dsimp only
    rw [if_pos hm, if_pos hm]
    simp
  · rw [openSetupPhase, openCreatedObjs]
    dsimp only
    rw [if_neg hm, if_neg hm]
    simp

theorem openSetupPhase_mode (t : MState) : (openSetupPhase t).mode = t.mode := by
  rw [openSetupPhase]
  dsimp only
  split <;> rfl

theorem openSetupPhase_points (t : MState) :
    (openSetupPhase t).points = some ⟨t.nextId, OBJ_NAME⟩ := by
  rw [openSetupPhase]
  dsimp only
  split <;> rfl

theorem openSetupPhase_polylineObj (t : MState) :
    (openSetupPhase t).polylineObj = some ⟨t.nextId + 1, OBJ_NAME⟩ := by
  rw [openSetupPhase]
  dsimp only
  split <;> rfl

theorem openSetupPhase_faces (t : MState) :
    (openSetupPhase t).faces =
      if t.mode = MeasureMode.Area then some ⟨t.nextId + 2, OBJ_NAME⟩ else t.faces := by
  by_cases hm : t.mode = MeasureMode.Area
  · rw [openSetupPhase]
    dsimp only
    rw [if_pos hm, if_pos hm]
  · rw [openSetupPhase]
    dsimp only
    rw [if_neg hm, if_neg hm]

theorem openSetupPhase_curve (t : MState) : (openSetupPhase t).curve = t.curve := by
  rw [openSetupPhase]
  dsimp only
  split <;> rfl

theorem openSetupPhase_nextId (t : MState) :
    (openSetupPhase t).nextId =
      if t.mode = MeasureMode.Area then t.nextId + 3 else t.nextId + 2 := by
  by_cases hm : t.mode = MeasureMode.Area
  · rw [openSetupPhase]
    dsimp only
    rw [if_pos hm, if_pos hm]
  · rw [openSetupPhase]
    dsimp only
    rw [if_neg hm, if_neg hm]

theorem openSetupPhase_tempPoints (t : MState) :
    (openSetupPhase t).tempPoints = t.tempPoints := by
  rw [openSetupPhase]
  dsimp only
  split <;> rfl

theorem openSetupPhase_tempLine (t : MState) :
    (openSetupPhase t).tempLine = t.tempLine := by
  rw [openSetupPhase]
  dsimp only
  split <;> rfl

theorem openSetupPhase_tempLineForArea (t : MState) :
    (openSetupPhase t).tempLineForArea = t.tempLineForArea := by
  rw [openSetupPhase]
  dsimp only
  split <;> rfl

theorem openSetupPhase_helpLabel (t : MState) : (openSetupPhase t).helpLabel = none := by
  rw [openSetupPhase]
  dsimp only
  split <;> rfl

theorem openSetupPhase_tempLabel (t : MState) : (openSetupPhase t).tempLabel = none := by
  rw [openSetupPhase]
  dsimp only
  split <;> rfl

theorem measureOwned_openCreated (m : MeasureMode) (n : ℕ) :
    ∀ o ∈ openCreatedObjs m n, measureOwned o = true := by
  intro o ho
  by_cases hm : m = MeasureMode.Area
  · simp [openCreatedObjs, hm] at ho
    rcases ho with rfl | rfl | rfl <;> rfl
  · simp [openCreatedObjs, hm] at ho
    rcases ho with rfl | rfl <;> rfl

theorem id_of_mem_openCreated {m : MeasureMode} {n : ℕ} :
    ∀ o ∈ openCreatedObjs m n,
      n ≤ o.id ∧ o.id < n + (if m = MeasureMode.Area then 3 else 2) := by
  intro o ho
  by_cases hm : m = MeasureMode.Area
  · simp only [hm, if_pos rfl]
    simp [openCreatedObjs, hm] at ho
    rcases ho with rfl | rfl | rfl <;> exact ⟨by simp, by simp⟩
  · rw [if_neg hm]
    simp [openCreatedObjs, hm] at ho
    rcases ho with rfl | rfl <;> exact ⟨by simp, by simp⟩

theorem sceneRemove_none (l : List SceneObj) : sceneRemove none l = l := rfl

theorem sceneRemove_some (x : SceneObj) (l : List SceneObj) :
    sceneRemove (some x) l = l.erase x := rfl

theorem close_tempPoints (s : MState) : (close s).tempPoints = none := rfl

theorem close_tempLine (s : MState) : (close s).tempLine = none := rfl

theorem close_tempLineForArea (s : MState) : (close s).tempLineForArea = none := rfl

theorem close_points (s : MState) : (close s).points = none := rfl

theorem close_polylineObj (s : MState) : (close s).polylineObj = none := rfl

theorem close_helpLabel (s : MState) : (close s).helpLabel = none := rfl

theorem close_tempLabel (s : MState) : (close s).tempLabel = none := rfl

theorem close_faces (s : MState) : (close s).faces = s.faces := rfl

theorem close_curve (s : MState) : (close s).curve = s.curve := rfl

theorem close_mode (s : MState) : (close s).mode = s.mode := rfl

theorem close_nextId (s : MState) : (close s).nextId = s.nextId := rfl

/-- close() is idempotent: on a closed session every removal targets a
field that is already none (or an object no longer in the scene) and
every listener removal targets a detached listener type. -/
theorem close_close_eq (s : MState) (hndS : s.scene.Nodup) (hndL : s.listeners.Nodup) :
    close (close s) = close s := by
  have hsc : (close (close s)).scene = (close s).scene := by
    rw [close_scene (close s)]
    rw [close_tempPoints, close_tempLine, close_tempLineForArea, close_points,
      close_polylineObj, close_helpLabel, close_tempLabel, close_faces, close_curve]
    simp only [sceneRemove_none]
    have h1 : sceneRemove s.faces (close s).scene = (close s).scene := by
      cases hf : s.faces with
      | none => rfl
      | some f =>
          rw [sceneRemove_some]
          exact List.erase_of_not_mem (faces_not_mem_close_scene hndS f hf)
    have h2 : sceneRemove s.curve (close s).scene = (close s).scene := by
      cases hc : s.curve with
      | none => rfl
      | some c =>
          rw [sceneRemove_some]
          exact List.erase_of_not_mem (curve_not_mem_close_scene hndS c hc)
    rw [h1, h2]
  have hmd : "mousedown" ∉ (close s).listeners := by
    rw [close_listeners]
    exact not_mem_erase_of_not_mem (not_mem_erase_of_not_mem (not_mem_erase_of_not_mem
      (not_mem_erase_of_not_mem hndL.not_mem_erase)))
  have hmm : "mousemove" ∉ (close s).listeners := by
    rw [close_listeners]
    exact not_mem_erase_of_not_mem (not_mem_erase_of_not_mem (not_mem_erase_of_not_mem
      (hndL.erase _).not_mem_erase))
  have hmu : "mouseup" ∉ (close s).listeners := by
    rw [close_listeners]
    exact not_mem_erase_of_not_mem (not_mem_erase_of_not_mem
      ((hndL.erase _).erase _).not_mem_erase)
  have hdb : "dblclick" ∉ (close s).listeners := by
    rw [close_listeners]
    exact not_mem_erase_of_not_mem (((hndL.erase _).erase _).erase _).not_mem_erase
  have hkd : "keydown" ∉ (close s).listeners := by
    rw [close_listeners]
    exact ((((hndL.erase _).erase _).erase _).erase _).not_mem_erase
  have hls : (close (close s)).listeners = (close s).listeners := by
    rw [close_listeners (close s)]
    rw [List.erase_of_not_mem hmd, List.erase_of_not_mem hmm, List.erase_of_not_mem hmu,
      List.erase_of_not_mem hdb, List.erase_of_not_mem hkd]
  ext1 <;> first
    | exact hsc
    | exact hls
    | rfl

theorem openTool_some_scene (m0 : MeasureMode) (s : MState) :
    (openTool (some m0) s).scene =
      (close { s with mode := m0 }).scene ++ openCreatedObjs m0 s.nextId := by
  show (openSetupPhase (close { s with mode := m0 })).scene = _
  rw [openSetupPhase_scene]
  rfl

theorem openTool_some_nextId (m0 : MeasureMode) (s : MState) :
    (openTool (some m0) s).nextId =
      if m0 = MeasureMode.Area then s.nextId + 3 else s.nextId + 2 := by
  show (openSetupPhase (close { s with mode := m0 })).nextId = _
  rw [openSetupPhase_nextId]
  rfl

theorem sceneRemove_faces_close (t : MState) (hnd : t.scene.Nodup) :
    sceneRemove t.faces (close t).scene = (close t).scene := by
  cases hf : t.faces with
  | none => rfl
  | some f =>
      rw [sceneRemove_some]
      exact List.erase_of_not_mem (faces_not_mem_close_scene hnd f hf)

theorem sceneRemove_curve_close (t : MState) (hnd : t.scene.Nodup) :
    sceneRemove t.curve (close t).scene = (close t).scene := by
  cases hc : t.curve with
  | none => rfl
  | some c =>
      rw [sceneRemove_some]
      exact List.erase_of_not_mem (curve_not_mem_close_scene hnd c hc)

/-- The second open() removes exactly the first session's geometry: its
scene is the base scene of the first close() plus only the objects the
second open() creates. -/
theorem open_twice_scene (m0 m1 : MeasureMode) (s : MState)
    (hndS : s.scene.Nodup)
    (hfresh : ∀ o ∈ s.scene, o.id < s.nextId) :
    (openTool (some m1) (openTool (some m0) s)).scene =
      (close { s with mode := m0 }).scene ++
        openCreatedObjs m1 (openTool (some m0) s).nextId := by
  have hc0fresh : ∀ o ∈ (close { s with mode := m0 }).scene, o.id < s.nextId :=
    fun o ho => hfresh o (close_scene_subset o ho)
  have hout : ∀ x : SceneObj, s.nextId ≤ x.id → x ∉ (close { s with mode := m0 }).scene :=
    fun x hx hmem => absurd (hc0fresh x hmem) (by omega)
  show (openSetupPhase (close { openSetupPhase (close { s with mode := m0 })
    with mode := m1 })).scene = _
  rw [openSetupPhase_scene]
  have hscene : (close { openSetupPhase (close { s with mode := m0 })
      with mode := m1 }).scene = (close { s with mode := m0 }).scene := by
    rw [close_scene]
    dsimp only
    rw [openSetupPhase_tempPoints, openSetupPhase_tempLine, openSetupPhase_tempLineForArea,
      openSetupPhase_points, openSetupPhase_polylineObj, openSetupPhase_faces,
      openSetupPhase_curve, openSetupPhase_helpLabel, openSetupPhase_tempLabel,
      openSetupPhase_scene]
    rw [close_tempPoints, close_tempLine, close_tempLineForArea, close_curve,
      close_faces, close_mode, close_nextId]
    dsimp only
    simp only [sceneRemove_none]
    by_cases hm0 : m0 = MeasureMode.Area
    · rw [if_pos hm0]
      rw [show openCreatedObjs m0 s.nextId =
        [(⟨s.nextId, OBJ_NAME⟩ : SceneObj), ⟨s.nextId + 1, OBJ_NAME⟩,
          ⟨s.nextId + 2, OBJ_NAME⟩] from by simp [openCreatedObjs, hm0]]
      rw [sceneRemove_some, sceneRemove_some, sceneRemove_some]
      rw [List.erase_append_right _ (hout _ (by simp)), List.erase_cons_head]
      rw [List.erase_append_right _ (hout _ (by simp)), List.erase_cons_head]
      rw [List.erase_append_right _ (hout _ (by simp)), List.erase_cons_head]
      rw [List.append_nil]
      exact sceneRemove_curve_close { s with mode := m0 } hndS
    · rw [if_neg hm0]
      rw [show openCreatedObjs m0 s.nextId =
        [(⟨s.nextId, OBJ_NAME⟩ : SceneObj), ⟨s.nextId + 1, OBJ_NAME⟩] from by
          simp [openCreatedObjs, hm0]]
      rw [sceneRemove_some, sceneRemove_some]
      rw [List.erase_append_right _ (hout _ (by simp)), List.erase_cons_head]
      rw [List.erase_append_right _ (hout _ (by simp)), List.erase_cons_head]
      rw [List.append_nil]
      have h1 : sceneRemove s.faces (close { s with mode := m0 }).scene
          = (close { s with mode := m0 }).scene :=
        sceneRemove_faces_close { s with mode := m0 } hndS
      rw [h1]
      exact sceneRemove_curve_close { s with mode := m0 } hndS
  rw [hscene]
  rfl

/-- C6: open(mode) always performs a full close() first (Measure.ts line
104); close() is idempotent on any session with duplicate-free scene and
listener lists (no error, no double-removal); and calling open() twice
leaves exactly one session's tool-owned geometry in the scene — the
owned objects after the second open() are precisely the ones it created,
and nothing created by the first open() survives. -/
theorem C6_open_close_lifecycle (m0 m1 : MeasureMode) (s : MState)
    (hndS : s.scene.Nodup) (hndL : s.listeners.Nodup)
    (hext : ∀ o ∈ s.scene, measureOwned o = false)
    (hfresh : ∀ o ∈ s.scene, o.id < s.nextId) :
    openTool (some m0) s = openSetupPhase (close { s with mode := m0 }) ∧
    close (close s) = close s ∧
    (openTool (some m1) (openTool (some m0) s)).scene.filter measureOwned
      = openCreatedObjs m1 (openTool (some m0) s).nextId ∧
    (∀ o ∈ (openTool (some m0) s).scene, measureOwned o = true →
      o ∉ (openTool (some m1) (openTool (some m0) s)).scene) := by
  have hc0ext : ∀ o ∈ (close { s with mode := m0 }).scene, measureOwned o = false :=
    fun o ho => hext o (close_scene_subset o ho)
  refine ⟨rfl, close_close_eq s hndS hndL, ?_, ?_⟩
  · rw [open_twice_scene m0 m1 s hndS hfresh, List.filter_append]
    have h1 : (close { s with mode := m0 }).scene.filter measureOwned = [] :=
      List.filter_eq_nil_iff.mpr (fun a ha => by rw [hc0ext a ha]; exact Bool.false_ne_true)
    have h2 : (openCreatedObjs m1 (openTool (some m0) s).nextId).filter measureOwned
        = openCreatedObjs m1 (openTool (some m0) s).nextId :=
      List.filter_eq_self.mpr (measureOwned_openCreated _ _)
    rw [h1, h2, List.nil_append]
  · intro o ho howned hmem2
    rw [openTool_some_scene] at ho
    rw [open_twice_scene m0 m1 s hndS hfresh] at hmem2
    rcases List.mem_append.mp ho with h1 | h1
    · have hfo := hc0ext o h1
      rw [howned] at hfo
      exact Bool.noConfusion hfo
    · rcases List.mem_append.mp hmem2 with h2 | h2
      · have hfo := hc0ext o h2
        rw [howned] at hfo
        exact Bool.noConfusion hfo
      · have hb1 := id_of_mem_openCreated o h1
        have hb2 := id_of_mem_openCreated o h2
        rw [openTool_some_nextId] at hb2
        by_cases hm0 : m0 = MeasureMode.Area
        · rw [if_pos hm0] at hb1
          rw [if_pos hm0] at hb2
          omega
        · rw [if_neg hm0] at hb1
          rw [if_neg hm0] at hb2
          omega

/-- A pristine host state: one external cube in the scene. -/
def stateC6 : MState := mkInit [⟨0, "cube"⟩] 1

theorem C6_open_close_lifecycle_witness :
    close (close stateC6) = close stateC6 :=
  (C6_open_close_lifecycle MeasureMode.Distance MeasureMode.Area stateC6
    (by decide) (by decide) (by decide) (by decide)).2.1

/-! ### C7: number formatting -/

/-- C7: label number formatting — nonnegative values below 0.0001 use the
default numeric string conversion; below 0.01 four fraction digits; below
0.1 three; otherwise two (Measure.ts lines 717-728); with the claim's
concrete examples. -/
theorem C7_numberToString_format :
    (∀ q : ℚ, 0 ≤ q → q < 1 / 10000 → numberToString q = NumString.plain q) ∧
    (∀ q : ℚ, 1 / 10000 ≤ q → q < 1 / 100 →
      numberToString q = NumString.fixedTo (toFixedQ q 4)) ∧
    (∀ q : ℚ, 1 / 100 ≤ q → q < 1 / 10 →
      numberToString q = NumString.fixedTo (toFixedQ q 3)) ∧
    (∀ q : ℚ, 1 / 10 ≤ q → numberToString q = NumString.fixedTo (toFixedQ q 2)) ∧
    numberToString (5 / 100000) = NumString.plain (5 / 100000) ∧
    numberToString (5 / 1000) = NumString.fixedTo "0.0050" ∧
    numberToString (5 / 100) = NumString.fixedTo "0.050" ∧
    numberToString (123456 / 100000) = NumString.fixedTo "1.23" := by
  have h1 : ∀ q : ℚ, q < 1 / 10000 → numberToString q = NumString.plain q := by
    intro q hlt
    rw [numberToString, if_pos hlt]
  have h2 : ∀ q : ℚ, 1 / 10000 ≤ q → q < 1 / 100 →
      numberToString q = NumString.fixedTo (toFixedQ q 4) := by
    intro q hge hlt
    rw [numberToString, if_neg (not_lt.mpr (by linarith))]
    dsimp only
    rw [if_pos hlt]
  have h3 : ∀ q : ℚ, 1 / 100 ≤ q → q < 1 / 10 →
      numberToString q = NumString.fixedTo (toFixedQ q 3) := by
    intro q hge hlt
    rw [numberToString, if_neg (not_lt.mpr (by linarith))]
    dsimp only
    rw [if_neg (not_lt.mpr hge), if_pos hlt]
  have h4 : ∀ q : ℚ, 1 / 10 ≤ q → numberToString q = NumString.fixedTo (toFixedQ q 2) := by
    intro q hge
    rw [numberToString, if_neg (not_lt.mpr (by linarith))]
    dsimp only
    rw [if_neg (not_lt.mpr (by linarith)), if_neg (not_lt.mpr hge)]
  have htf2 : toFixedQ (5 / 1000) 4 = "0.0050" := by
    rw [toFixedQ]
    rw [show ⌊(5 : ℚ) / 1000 * (10 : ℚ) ^ (4 : ℕ) + 1 / 2⌋ = 50 from by
      norm_num [Int.floor_eq_iff]]
    rfl
  have htf3 : toFixedQ (5 / 100) 3 = "0.050" := by
    rw [toFixedQ]
    rw [show ⌊(5 : ℚ) / 100 * (10 : ℚ) ^ (3 : ℕ) + 1 / 2⌋ = 50 from by
      norm_num [Int.floor_eq_iff]]
    rfl
  have htf4 : toFixedQ (123456 / 100000) 2 = "1.23" := by
    rw [toFixedQ]
    rw [show ⌊(123456 : ℚ) / 100000 * (10 : ℚ) ^ (2 : ℕ) + 1 / 2⌋ = 123 from by
      norm_num [Int.floor_eq_iff]]
    rfl
  refine ⟨fun q _ hlt => h1 q hlt, h2, h3, h4, h1 _ (by norm_num), ?_, ?_, ?_⟩
  · rw [h2 _ (by norm_num) (by norm_num), htf2]
  · rw [h3 _ (by norm_num) (by norm_num), htf3]
  · rw [h4 _ (by norm_num), htf4]

theorem C7_numberToString_format_witness :
    numberToString (1 / 200) = NumString.fixedTo (toFixedQ (1 / 200) 4) :=
  C7_numberToString_format.2.1 (1 / 200) (by norm_num) (by norm_num)

/-! ### C8: calculateAngle -/

theorem Vec3.dot_comm (a b : Vec3) : a.dot b = b.dot a := by
  unfold Vec3.dot
  ring

theorem Vec3.lengthSq_pos {a : Vec3} (h : a ≠ Vec3.zero) : 0 < a.lengthSq := by
  rcases a with ⟨x, y, z⟩
  unfold Vec3.lengthSq
  dsimp only
  by_contra hle
  push_neg at hle
  have hx : x = 0 := by nlinarith [mul_self_nonneg x, mul_self_nonneg y, mul_self_nonneg z]
  have hy : y = 0 := by nlinarith [mul_self_nonneg x, mul_self_nonneg y, mul_self_nonneg z]
  have hz : z = 0 := by nlinarith [mul_self_nonneg x, mul_self_nonneg y, mul_self_nonneg z]
  exact h (by simp [Vec3.zero, hx, hy, hz])

theorem Vec3.angleTo_mem (a b : Vec3) : 0 ≤ a.angleTo b ∧ a.angleTo b ≤ Real.pi := by
  unfold Vec3.angleTo
  split
  · constructor
    · linarith [Real.pi_pos]
    · linarith [Real.pi_pos]
  · exact ⟨Real.arccos_nonneg _, Real.arccos_le_pi _⟩

theorem Vec3.angleTo_comm (a b : Vec3) : a.angleTo b = b.angleTo a := by
  unfold Vec3.angleTo
  rw [Vec3.dot_comm, mul_comm a.lengthSq b.lengthSq]

/-- C8: calculateAngle always lies in [0, 180] degrees, is symmetric in
its outer arguments, and is 0 when the three points are collinear with
p0 and p2 on the same side of p1 (Measure.ts lines 682-690; angleTo is
three.js Vector3.angleTo). -/
theorem C8_calculateAngle_props (p0 p1 p2 : Vec3) :
    0 ≤ calculateAngle p0 p1 p2 ∧ calculateAngle p0 p1 p2 ≤ 180 ∧
    calculateAngle p0 p1 p2 = calculateAngle p2 p1 p0 ∧
    (SameSideCollinear p0 p1 p2 → calculateAngle p0 p1 p2 = 0) := by
  obtain ⟨ha0, hapi⟩ := Vec3.angleTo_mem (p0.sub p1) (p2.sub p1)
  refine ⟨?_, ?_, ?_, ?_⟩
  · unfold calculateAngle
    exact div_nonneg (mul_nonneg ha0 (by norm_num)) (le_of_lt Real.pi_pos)
  · unfold calculateAngle
    rw [div_le_iff₀ Real.pi_pos]
    nlinarith [Real.pi_pos]
  · unfold calculateAngle
    rw [Vec3.angleTo_comm]
  · rintro ⟨hne, t, ht, heq⟩
    unfold calculateAngle
    have hL : 0 < (p0.sub p1).lengthSq := Vec3.lengthSq_pos hne
    have hlsq : (Vec3.smul t (p0.sub p1)).lengthSq = t ^ 2 * (p0.sub p1).lengthSq := by
      unfold Vec3.smul Vec3.lengthSq
      dsimp only
      ring
    have hdot : (p0.sub p1).dot (Vec3.smul t (p0.sub p1)) = t * (p0.sub p1).lengthSq := by
      unfold Vec3.smul Vec3.dot Vec3.lengthSq
      dsimp only
      ring
    unfold Vec3.angleTo
    rw [heq, hlsq, hdot]
    have hsq : Real.sqrt ((p0.sub p1).lengthSq * (t ^ 2 * (p0.sub p1).lengthSq))
        = t * (p0.sub p1).lengthSq := by
      rw [show (p0.sub p1).lengthSq * (t ^ 2 * (p0.sub p1).lengthSq)
        = (t * (p0.sub p1).lengthSq) ^ 2 from by ring]
      exact Real.sqrt_sq (by positivity)
    rw [hsq]
    rw [if_neg (ne_of_gt (by positivity))]
    rw [div_self (ne_of_gt (by positivity))]
    simp [Real.arccos_one]

theorem C8_calculateAngle_props_witness :
    calculateAngle ⟨1, 0, 0⟩ ⟨0, 0, 0⟩ ⟨2, 0, 0⟩ = 0 :=
  (C8_calculateAngle_props ⟨1, 0, 0⟩ ⟨0, 0, 0⟩ ⟨2, 0, 0⟩).2.2.2
    ⟨by
      intro h
      have hx := congrArg Vec3.x h
      simp [Vec3.sub, Vec3.zero] at hx,
    2, by norm_num, by simp [Vec3.sub, Vec3.smul]⟩

/-! ### C9: calculateArea -/

theorem areaFan_eq (p0 : Vec3) (l : List Vec3) :
    areaFan p0 l = ∑ j ∈ Finset.range (l.length - 1),
      heronStep p0 (l.getD j Vec3.zero) (l.getD (j + 1) Vec3.zero) := by
  induction l with
  | nil => simp [areaFan]
  | cons a t ih =>
      cases t with
      | nil => simp [areaFan]
      | cons b t2 =>
          rw [areaFan, ih]
          rw [show (a :: b :: t2).length - 1 = t2.length + 1 from by simp]
          rw [Finset.sum_range_succ']
          rw [show (b :: t2).length - 1 = t2.length from by simp]
          rw [add_comm]
          congr 1

/-- C9: calculateArea is the triangulation fan from the first vertex,
summing Heron triangle areas of (points[0], points[j], points[j+1]) for
j from 1 to length-2 (Measure.ts lines 667-677) — here equated with the
spec-worded indexed sum heronFanSpec — and evaluates to 6 on the right
triangle with legs 3 and 4. -/
theorem C9_calculateArea_fan :
    (∀ ps : List Vec3, calculateArea ps = heronFanSpec ps) ∧
    calculateArea [⟨0, 0, 0⟩, ⟨3, 0, 0⟩, ⟨0, 4, 0⟩] = 6 := by
  constructor
  · intro ps
    cases ps with
    | nil => simp [calculateArea, heronFanSpec]
    | cons p0 rest =>
        rw [calculateArea, areaFan_eq, heronFanSpec]
        rw [Finset.sum_Ico_eq_sum_range]
        rw [show (p0 :: rest).length - 1 - 1 = rest.length - 1 from by simp]
        apply Finset.sum_congr rfl
        intro i _
        rw [show 1 + i = i + 1 from by omega]
        rfl
  · have ha : Vec3.distanceTo ⟨0, 0, 0⟩ ⟨3, 0, 0⟩ = 3 := by
      rw [Vec3.distanceTo, show ((⟨0, 0, 0⟩ : Vec3).sub ⟨3, 0, 0⟩).lengthSq = 9 from by
        unfold Vec3.sub Vec3.lengthSq; norm_num]
      rw [show (9 : ℝ) = 3 ^ 2 from by norm_num, Real.sqrt_sq (by norm_num)]
    have hb : Vec3.distanceTo ⟨3, 0, 0⟩ ⟨0, 4, 0⟩ = 5 := by
      rw [Vec3.distanceTo, show ((⟨3, 0, 0⟩ : Vec3).sub ⟨0, 4, 0⟩).lengthSq = 25 from by
        unfold Vec3.sub Vec3.lengthSq; norm_num]
      rw [show (25 : ℝ) = 5 ^ 2 from by norm_num, Real.sqrt_sq (by norm_num)]
    have hc : Vec3.distanceTo ⟨0, 4, 0⟩ ⟨0, 0, 0⟩ = 4 := by
      rw [Vec3.distanceTo, show ((⟨0, 4, 0⟩ : Vec3).sub ⟨0, 0, 0⟩).lengthSq = 16 from by
        unfold Vec3.sub Vec3.lengthSq; norm_num]
      rw [show (16 : ℝ) = 4 ^ 2 from by norm_num, Real.sqrt_sq (by norm_num)]
    rw [show calculateArea [(⟨0, 0, 0⟩ : Vec3), ⟨3, 0, 0⟩, ⟨0, 4, 0⟩]
      = heronStep ⟨0, 0, 0⟩ ⟨3, 0, 0⟩ ⟨0, 4, 0⟩ + 0 from rfl, heronStep]
    rw [ha, hb, hc]
    rw [show ((3 : ℝ) + 5 + 4) / 2 * (((3 : ℝ) + 5 + 4) / 2 - 3) *
        (((3 : ℝ) + 5 + 4) / 2 - 5) * (((3 : ℝ) + 5 + 4) / 2 - 4) = 6 ^ 2 from by norm_num]
    rw [Real.sqrt_sq (by norm_num)]
    norm_num

end MeasureTs
